import Mathlib

/-!
Verification of the `ng-3d-file-inspector` file-provenance inspector
(`projects/file-inspector/src/lib/file-inspector.service.ts`) against its
natural-language specification.

The service is embedded shallowly:

* JavaScript strings are `List Char`; `String.prototype.includes`,
  `startsWith`, `trim`, `toLowerCase` and `split` are translated to
  executable functions on `List Char` (`includesL`, `List.isPrefixOf`,
  `trimJS`, `toLowerL`, `splitOnChar`).  JS `\s` is modelled by the ASCII
  whitespace characters (`isSpaceJS`); the exotic Unicode space characters
  JS additionally accepts play no role in any claim.
* The regular expressions of the service are transcribed token by token
  into a small backtracking pattern engine (`Tok`, `Pat`, `reMatch`) with
  JS semantics: leftmost match, greedy (or lazy, for `*?`) quantifiers,
  alternatives tried in order, capture groups returned in order.
* A browser `File` is an `InputFile`: its name, its text content
  (`none` when `file.text()` would reject), its zip directory (`none`
  when `JSZip.loadAsync` would throw) and its byte size.  A zip is the
  ordered list of its named entries; reading an entry's content may fail
  (`content = none` models `entry.async('string')` throwing).
* `parseFloat` is modelled on the digit-and-dot captures produced by the
  settings patterns (`[\d.]+`), with `JSNumber.nan` for the NaN results.
-/

/-- The characters of a string literal, the representation used for all
embedded JavaScript strings. -/
def str (s : String) : List Char := s.data

/-- ASCII model of the JS `\s` class and of the characters stripped by
`String.prototype.trim`. -/
def isSpaceJS (c : Char) : Bool :=
  c == ' ' || c == '\t' || c == '\n' || c == '\r' || c == '\x0b' || c == '\x0c'

/-- `String.prototype.toLowerCase`, per character. -/
def toLowerL (s : List Char) : List Char := s.map Char.toLower

/-- `haystack.includes(needle)`: some suffix of the haystack starts with
the needle. -/
def includesL : List Char → List Char → Bool
  | [], needle => needle.isEmpty
  | c :: rest, needle => needle.isPrefixOf (c :: rest) || includesL rest needle

/-- `String.prototype.trim`: strip whitespace from both ends. -/
def trimJS (s : List Char) : List Char :=
  ((s.dropWhile isSpaceJS).reverse.dropWhile isSpaceJS).reverse

/-- `String.prototype.split(sep)` for a one-character separator; always
returns at least one (possibly empty) piece, as in JS. -/
def splitOnChar (c : Char) : List Char → List (List Char)
  | [] => [[]]
  | x :: xs =>
    if x == c then [] :: splitOnChar c xs
    else
      match splitOnChar c xs with
      | [] => [[x]]
      | h :: t => (x :: h) :: t

/-! ## A small backtracking pattern engine

Each regular expression of the source is transcribed into a `Pat`: a list
of segments, each segment a capture flag and a token list.  Matching
follows JS semantics: the leftmost start position wins, a greedy
quantifier tries the longest repetition first (a lazy one the shortest),
and the first complete match in that order is returned together with its
captures. -/

/-- Quantifier of a character-class token: exactly one, one or more
(greedy), zero or more (greedy), zero or more (lazy, JS `*?`). -/
inductive Quant where
  | one | plus | star | starL
deriving DecidableEq

/-- One token of a pattern: a literal character or a character class
(given by its membership test) with a quantifier. -/
inductive Tok where
  | lit (c : Char)
  | cls (q : Quant) (p : Char → Bool)

/-- Character comparison, case-insensitive when the pattern carries the
JS `i` flag. -/
def charEqCI (ci : Bool) (a b : Char) : Bool :=
  if ci then a.toLower == b.toLower else a == b

/-- The suffixes left after a greedy `p*` consumes a prefix, longest
consumption first. -/
def starSuffixes (p : Char → Bool) : List Char → List (List Char)
  | [] => [[]]
  | c :: rest => if p c then starSuffixes p rest ++ [c :: rest] else [c :: rest]

/-- The suffixes left after a lazy `p*?` consumes a prefix, shortest
consumption first. -/
def starLSuffixes (p : Char → Bool) : List Char → List (List Char)
  | [] => [[]]
  | c :: rest => if p c then (c :: rest) :: starLSuffixes p rest else [c :: rest]

/-- The suffixes a single token can leave, in backtracking priority
order. -/
def tokSuffixes (ci : Bool) : Tok → List Char → List (List Char)
  | Tok.lit _, [] => []
  | Tok.lit c, x :: rest => if charEqCI ci x c then [rest] else []
  | Tok.cls Quant.one _, [] => []
  | Tok.cls Quant.one p, x :: rest => if p x then [rest] else []
  | Tok.cls Quant.plus _, [] => []
  | Tok.cls Quant.plus p, x :: rest => if p x then starSuffixes p rest else []
  | Tok.cls Quant.star p, s => starSuffixes p s
  | Tok.cls Quant.starL p, s => starLSuffixes p s

/-- First success of `f` over a list of candidates, in order. -/
def firstSome : List α → (α → Option β) → Option β
  | [], _ => none
  | a :: rest, f =>
    match f a with
    | some b => some b
    | none => firstSome rest f

/-- Match a token list against a prefix of the input, trying candidate
suffixes in backtracking order, and pass the first suffix for which the
continuation succeeds. -/
def seqFirst (ci : Bool) : List Tok → List Char → (List Char → Option α) → Option α
  | [], s, k => k s
  | t :: ts, s, k => firstSome (tokSuffixes ci t s) (fun s2 => seqFirst ci ts s2 k)

/-- A pattern: the `i` flag and the segments, each a capture flag and its
tokens. -/
structure Pat where
  ci : Bool := true
  segs : List (Bool × List Tok)

/-- Match the segments in sequence with full backtracking, collecting the
text consumed by each capturing segment. -/
def segsFirst (ci : Bool) : List (Bool × List Tok) → List Char → (List (List Char) → Option α) → Option α
  | [], _, k => k []
  | (cap, toks) :: rest, s, k =>
    seqFirst ci toks s (fun s2 =>
      segsFirst ci rest s2 (fun caps =>
        k (if cap then s.take (s.length - s2.length) :: caps else caps)))

/-- Match a pattern at the very start of the input. -/
def matchHere (p : Pat) (s : List Char) : Option (List (List Char)) :=
  segsFirst p.ci p.segs s (fun caps => some caps)

/-- Leftmost match: try every start position in order. -/
def matchFrom (p : Pat) : List Char → Option (List (List Char))
  | [] => matchHere p []
  | c :: rest =>
    match matchHere p (c :: rest) with
    | some caps => some caps
    | none => matchFrom p rest

/-- `s.match(p)`: the captures of the leftmost match (an empty list when
the pattern has no capture group), or `none` when there is no match. -/
def reMatch (p : Pat) (s : List Char) : Option (List (List Char)) :=
  matchFrom p s

/-- Literal tokens for a literal run of pattern text. -/
def lits (s : String) : List Tok := s.data.map Tok.lit

/-! ## Data model

`FileType`, `PrinterInfo`, `SlicerInfo`, the analysis results and the
print-settings record are the types of `lib/types.ts`; fields the service
never assigns (`nozzleDiameter`, `buildVolume`, `SlicerInfo.settings`) are
omitted.  Note that `types.ts` declares `FileAnalysisResult.printerInfo`
as `PrinterInfo[]`; the embedding uses the single optional record the
service actually produces (see the claim about the printer-info sequence).
-/

/-- The file-type enumeration of `types.ts` (`TMF` is the 3MF container
format). -/
inductive FileType where
  | STL | TMF | GCODE | UNKNOWN
deriving DecidableEq

/-- A recovered printer record: the fields of `PrinterInfo` the service
assigns. -/
structure PrinterInfo where
  name : List Char
  brand : List Char
  model : Option (List Char) := none
deriving DecidableEq

/-- A recovered slicer record: the fields of `SlicerInfo` the service
assigns. -/
structure SlicerInfo where
  name : List Char
  version : Option (List Char) := none
deriving DecidableEq

/-- A JS number as produced by `parseFloat`: a rational value or NaN. -/
inductive JSNumber where
  | nan
  | val (q : ℚ)
deriving DecidableEq

/-- The sparse print-settings object; a `none` field is an absent key.
`printSpeed` is declared in `types.ts` but never assigned by the
service. -/
structure PrintSettings where
  layerHeight : Option JSNumber := none
  infill : Option JSNumber := none
  printSpeed : Option JSNumber := none
  temperature : Option JSNumber := none
  bedTemperature : Option JSNumber := none
deriving DecidableEq

/-- The basic analysis result (shape as produced by
`performFileAnalysis`). -/
structure FileAnalysisResult where
  fileType : FileType
  isSliced : Bool
  printerInfo : Option PrinterInfo := none
deriving DecidableEq

/-- The detailed analysis result of `performDetailedFileAnalysis`. -/
structure DetailedFileAnalysis where
  fileType : FileType
  isSliced : Bool
  printerInfo : Option PrinterInfo := none
  fileSize : Nat
  slicerInfo : Option SlicerInfo := none
  printSettings : Option PrintSettings := none
deriving DecidableEq

/-- A named zip entry; `content = none` models `entry.async('string')`
throwing for that entry. -/
structure ZipEntry where
  name : List Char
  content : Option (List Char)
deriving DecidableEq

/-- A loaded zip: its entries in directory order (`Object.keys(zip.files)`
order). -/
structure ZipFile where
  entries : List ZipEntry
deriving DecidableEq

/-- `zip.file(name)`: the entry of that exact name, if any. -/
def ZipFile.file (z : ZipFile) (n : List Char) : Option ZipEntry :=
  z.entries.find? (fun e => e.name == n)

/-- A browser `File` as the service consumes it: its name, the result of
`file.text()` (`none` = the read rejects), the result of
`JSZip.loadAsync(file)` (`none` = the load throws) and its byte size. -/
structure InputFile where
  name : List Char
  text : Option (List Char)
  zip : Option ZipFile
  size : Nat
deriving DecidableEq

/-! ## The service, function by function -/

/-- `detectFileType` (service lines 75-89): lowercase the file name, split
on `'.'`, take the last piece (`pop()`), and switch on it. -/
def detectFileType (file_name : List Char) : FileType :=
  let extension := (splitOnChar '.' (toLowerL file_name)).getLastD []
  if extension == str "stl" then FileType.STL
  else if extension == str "3mf" then FileType.TMF
  else if extension == str "gcode" then FileType.GCODE
  else if extension == str "g" then FileType.GCODE
  else FileType.UNKNOWN

/-- The `slicingIndicators` list of `is3mfSliced` (lines 109-124). -/
def slicingIndicators : List (List Char) :=
  [str "PrusaSlicer", str "SuperSlicer", str "OrcaSlicer", str "Cura", str "BambuStudio",
   str "Slic3r", str "ideaMaker", str "Simplify3D",
   str "print_settings", str "printer_settings", str "material_settings",
   str "slice_parameter", str "slicing_info", str "slicer_version",
   str "print_time", str "material_usage", str "layer_count",
   str "slice:", str "config:", str "slic3r:", str "prusaslicer:", str "bambustudio:",
   str "xmlns:config", str "xmlns:slic3r", str "xmlns:slice"]

/-- The `3D/3dmodel.model` check of `is3mfSliced` (lines 104-131):
`some true` = an indicator was found, `some false` = keep checking,
`none` = reading the entry threw (the surrounding `catch` then yields
`false`). -/
def modelFileCheck (zip : ZipFile) : Option Bool :=
  match zip.file (str "3D/3dmodel.model") with
  | none => some false
  | some modelFile =>
    match modelFile.content with
    | none => none
    | some modelContent =>
      some (slicingIndicators.any (fun indicator =>
        includesL (toLowerL modelContent) (toLowerL indicator)))

/-- The metadata/auxiliary/config sweep of `is3mfSliced` (lines 133-144),
over the zip's file names in order; `none` = a read threw. -/
def auxFilesCheck (zip : ZipFile) : List (List Char) → Option Bool
  | [] => some false
  | fileName :: rest =>
    if List.isPrefixOf (str "Metadata/") fileName
        || includesL fileName (str "auxiliary") || includesL fileName (str "config") then
      match zip.file fileName with
      | some f =>
        match f.content with
        | none => none
        | some content =>
          if includesL content (str "slic") || includesL content (str "print")
              || includesL content (str "layer") then
            some true
          else auxFilesCheck zip rest
      | none => auxFilesCheck zip rest
    else auxFilesCheck zip rest

/-- `is3mfSliced` (lines 91-151).  A failed zip load or a throwing entry
read lands in the `catch` and yields `false`. -/
def is3mfSliced (file : InputFile) : Bool :=
  match file.zip with
  | none => false
  | some zip =>
    let fileNames := zip.entries.map (fun e => e.name)
    if fileNames.any (fun n => includesL n (str "Metadata/") || includesL n (str "auxiliary")) then
      true
    else
      match modelFileCheck zip with
      | none => false
      | some true => true
      | some false =>
        match auxFilesCheck zip fileNames with
        | none => false
        | some b => b

/-- `parsePrinterName` (lines 280-302): the printer-name canonicalizer. -/
def parsePrinterName (name : List Char) : PrinterInfo :=
  let lowerName := toLowerL name
  if includesL lowerName (str "prusa") then
    if includesL lowerName (str "mk3") then { name := str "i3 MK3S+", brand := str "Prusa Research" }
    else if includesL lowerName (str "mk4") then { name := str "MK4", brand := str "Prusa Research" }
    else if includesL lowerName (str "mini") then { name := str "MINI+", brand := str "Prusa Research" }
    else if includesL lowerName (str "xl") then { name := str "XL", brand := str "Prusa Research" }
    else { name := name, brand := str "Prusa Research" }
  else if includesL lowerName (str "bambu") then
    if includesL lowerName (str "x1") then { name := str "X1 Carbon", brand := str "Bambu Lab" }
    else if includesL lowerName (str "a1") then { name := str "A1 mini", brand := str "Bambu Lab" }
    else { name := name, brand := str "Bambu Lab" }
  else if includesL lowerName (str "ender") then { name := name, brand := str "Creality" }
  else { name := name, brand := str "Generic" }

/-! ## Character classes of the service's regular expressions -/

/-- JS `.` (no `s` flag): anything but a line terminator. -/
def dotCh (c : Char) : Bool := !(c == '\n' || c == '\r')

/-- Greedy `.*`. -/
def dotStar : Tok := Tok.cls Quant.star dotCh

/-- Lazy `.*?`. -/
def dotStarL : Tok := Tok.cls Quant.starL dotCh

/-- `[\d.]`. -/
def digitDot (c : Char) : Bool := c.isDigit || c == '.'

/-- `[^0-9]`. -/
def nonDigit (c : Char) : Bool := !c.isDigit

/-- `[^\n\r;]`. -/
def notNlSemi (c : Char) : Bool := !(c == '\n' || c == '\r' || c == ';')

/-- `[^,\n\r;]` (also written `[^\n\r;,]` in the source). -/
def notCommaNlSemi (c : Char) : Bool := !(c == ',' || c == '\n' || c == '\r' || c == ';')

/-- `[:\s]`. -/
def colonOrSpace (c : Char) : Bool := c == ':' || isSpaceJS c

/-- `[:=]`. -/
def colonOrEq (c : Char) : Bool := c == ':' || c == '='

/-- `["']`. -/
def quoteCh (c : Char) : Bool := c == '"' || c == '\''

/-- `[^"']`. -/
def notQuote (c : Char) : Bool := !(c == '"' || c == '\'')

/-- `[^"]`. -/
def notDq (c : Char) : Bool := !(c == '"')

/-- `[^<]`. -/
def notLt (c : Char) : Bool := !(c == '<')

/-- `[0-9S]` under the `i` flag. -/
def digitOrS (c : Char) : Bool := c.isDigit || c.toLower == 's'

/-- `[A-Z0-9\s]` under the `i` flag. -/
def alnumSpace (c : Char) : Bool :=
  ('a' ≤ c.toLower && c.toLower ≤ 'z') || c.isDigit || isSpaceJS c

/-- `[\d.\s]`, the class of the trailing-version strip in
`extract3mfSlicerInfo`. -/
def digitDotSpace (c : Char) : Bool := c.isDigit || c == '.' || isSpaceJS c

/-- A `["']` class token. -/
def q1 : Tok := Tok.cls Quant.one quoteCh

/-! ## 3MF printer extraction (`extractPrinterInfo`, lines 153-242) -/

/-- One row of the `printerPatterns` table: the pattern, the `brand`
field and the optional fixed `name` field. -/
structure PrinterPattern where
  pattern : Pat
  brand : List Char
  name : Option (List Char) := none

/-- The `printerPatterns` table (lines 178-209), row by row. -/
def printerPatterns : List PrinterPattern :=
  [ -- /<metadata.*name=["']printer_model["'].*>([^<]+)</i
    { pattern := { segs := [
        (false, lits "<metadata" ++ [dotStar] ++ lits "name=" ++ [q1] ++ lits "printer_model" ++ [q1, dotStar, Tok.lit '>']),
        (true, [Tok.cls Quant.plus notLt]),
        (false, [Tok.lit '<'])] },
      brand := str "Generic" },
    -- /<metadata.*name=["']printer_variant["'].*>([^<]+)</i
    { pattern := { segs := [
        (false, lits "<metadata" ++ [dotStar] ++ lits "name=" ++ [q1] ++ lits "printer_variant" ++ [q1, dotStar, Tok.lit '>']),
        (true, [Tok.cls Quant.plus notLt]),
        (false, [Tok.lit '<'])] },
      brand := str "Generic" },
    -- /printer_model="([^"]+)"/i
    { pattern := { segs := [
        (false, lits "printer_model=" ++ [Tok.lit '"']),
        (true, [Tok.cls Quant.plus notDq]),
        (false, [Tok.lit '"'])] },
      brand := str "Generic" },
    -- /printer_variant="([^"]+)"/i
    { pattern := { segs := [
        (false, lits "printer_variant=" ++ [Tok.lit '"']),
        (true, [Tok.cls Quant.plus notDq]),
        (false, [Tok.lit '"'])] },
      brand := str "Generic" },
    -- /Prusa.*i3.*MK([0-9S]+)/i
    { pattern := { segs := [
        (false, lits "Prusa" ++ [dotStar] ++ lits "i3" ++ [dotStar] ++ lits "MK"),
        (true, [Tok.cls Quant.plus digitOrS])] },
      brand := str "Prusa Research" },
    -- /Original Prusa i3 MK([0-9S]+)/i
    { pattern := { segs := [
        (false, lits "Original Prusa i3 MK"),
        (true, [Tok.cls Quant.plus digitOrS])] },
      brand := str "Prusa Research" },
    -- /Prusa.*MINI/i
    { pattern := { segs := [(false, lits "Prusa" ++ [dotStar] ++ lits "MINI")] },
      brand := str "Prusa Research", name := some (str "MINI+") },
    -- /Prusa.*XL/i
    { pattern := { segs := [(false, lits "Prusa" ++ [dotStar] ++ lits "XL")] },
      brand := str "Prusa Research", name := some (str "XL") },
    -- /MK3S/i
    { pattern := { segs := [(false, lits "MK3S")] },
      brand := str "Prusa Research", name := some (str "i3 MK3S+") },
    -- /MK4/i
    { pattern := { segs := [(false, lits "MK4")] },
      brand := str "Prusa Research", name := some (str "MK4") },
    -- /Bambu.*X1.*Carbon/i
    { pattern := { segs := [(false, lits "Bambu" ++ [dotStar] ++ lits "X1" ++ [dotStar] ++ lits "Carbon")] },
      brand := str "Bambu Lab", name := some (str "X1 Carbon") },
    -- /Bambu.*A1.*mini/i
    { pattern := { segs := [(false, lits "Bambu" ++ [dotStar] ++ lits "A1" ++ [dotStar] ++ lits "mini")] },
      brand := str "Bambu Lab", name := some (str "A1 mini") },
    -- /X1C/i
    { pattern := { segs := [(false, lits "X1C")] },
      brand := str "Bambu Lab", name := some (str "X1 Carbon") },
    -- /A1M/i
    { pattern := { segs := [(false, lits "A1M")] },
      brand := str "Bambu Lab", name := some (str "A1 mini") },
    -- /Ender.*(\d+)/i
    { pattern := { segs := [
        (false, lits "Ender" ++ [dotStar]),
        (true, [Tok.cls Quant.plus Char.isDigit])] },
      brand := str "Creality" },
    -- /CR-(\d+)/i
    { pattern := { segs := [
        (false, lits "CR-"),
        (true, [Tok.cls Quant.plus Char.isDigit])] },
      brand := str "Creality" },
    -- /Ultimaker.*([A-Z0-9\s]+)/i
    { pattern := { segs := [
        (false, lits "Ultimaker" ++ [dotStar]),
        (true, [Tok.cls Quant.plus alnumSpace])] },
      brand := str "Ultimaker" },
    -- /printer.*name.*[:=]["']([^"']+)["']/i
    { pattern := { segs := [
        (false, lits "printer" ++ [dotStar] ++ lits "name" ++ [dotStar, Tok.cls Quant.one colonOrEq, q1]),
        (true, [Tok.cls Quant.plus notQuote]),
        (false, [q1])] },
      brand := str "Generic" },
    -- /machine.*type.*[:=]["']([^"']+)["']/i
    { pattern := { segs := [
        (false, lits "machine" ++ [dotStar] ++ lits "type" ++ [dotStar, Tok.cls Quant.one colonOrEq, q1]),
        (true, [Tok.cls Quant.plus notQuote]),
        (false, [q1])] },
      brand := str "Generic" } ]

/-- The `fallbackPatterns` of `extractPrinterInfo` (lines 224-227):
`/printer.*[:=]\s*([^\n\r;,]+)/i` and `/machine.*[:=]\s*([^\n\r;,]+)/i`. -/
def fallbackPatterns : List Pat :=
  [ { segs := [
      (false, lits "printer" ++ [dotStar, Tok.cls Quant.one colonOrEq, Tok.cls Quant.star isSpaceJS]),
      (true, [Tok.cls Quant.plus notCommaNlSemi])] },
    { segs := [
      (false, lits "machine" ++ [dotStar, Tok.cls Quant.one colonOrEq, Tok.cls Quant.star isSpaceJS]),
      (true, [Tok.cls Quant.plus notCommaNlSemi])] } ]

/-- The `relevantFiles` list used by `extractPrinterInfo` and
`extract3mfSlicerInfo` (lines 159, 310). -/
def relevantFiles : List (List Char) := [str "3D/3dmodel.model", str "[Content_Types].xml"]

/-- The `allContent` accumulation both extractors perform identically
(lines 156-174 and 307-325): concatenate the readable contents of the
relevant files and of every `Metadata/`-, `auxiliary`- or `config`-named
entry, each followed by a space; an entry whose read throws is skipped by
the inner `try`. -/
def combinedContent (zip : ZipFile) : List Char :=
  let metadataFiles := (zip.entries.map (fun e => e.name)).filter (fun n =>
    List.isPrefixOf (str "Metadata/") n || includesL n (str "auxiliary") || includesL n (str "config"))
  (relevantFiles ++ metadataFiles).foldl (fun allContent fileName =>
    match zip.file fileName with
    | some f =>
      match f.content with
      | some content => allContent ++ content ++ [' ']
      | none => allContent
    | none => allContent) []

/-- The main pattern loop of `extractPrinterInfo` (lines 211-221):
`printerName = name || match[1]`, `model = match[1] ? match[1].trim() :
printerName.trim()`. -/
def runPrinterPatterns : List PrinterPattern → List Char → Option PrinterInfo
  | [], _ => none
  | pp :: rest, allContent =>
    match reMatch pp.pattern allContent with
    | some caps =>
      let m1 : Option (List Char) := caps.head?
      let printerName := match pp.name with
        | some n => n
        | none => m1.getD []
      some { name := trimJS printerName, brand := pp.brand,
             model := some (trimJS (m1.getD printerName)) }
    | none => runPrinterPatterns rest allContent

/-- The fallback loop of `extractPrinterInfo` (lines 229-235): use a
match only when its trimmed capture is non-empty, and feed it to
`parsePrinterName`. -/
def runFallbackPatterns : List Pat → List Char → Option PrinterInfo
  | [], _ => none
  | p :: rest, allContent =>
    match reMatch p allContent with
    | some caps =>
      if (trimJS (caps.headD [])).length > 0 then
        some (parsePrinterName (trimJS (caps.headD [])))
      else runFallbackPatterns rest allContent
    | none => runFallbackPatterns rest allContent

/-- `extractPrinterInfo` (lines 153-242): a failed zip load lands in the
`catch` and yields `undefined`. -/
def extractPrinterInfo (file : InputFile) : Option PrinterInfo :=
  match file.zip with
  | none => none
  | some zip =>
    let allContent := combinedContent zip
    match runPrinterPatterns printerPatterns allContent with
    | some pi => some pi
    | none => runFallbackPatterns fallbackPatterns allContent

/-! ## G-code printer extraction (`extractGcodePrinterInfo`, lines 244-278) -/

/-- `/printer[:\s]+([^\n\r;]+)/i`. -/
def printerLinePat : Pat := { segs := [
  (false, lits "printer" ++ [Tok.cls Quant.plus colonOrSpace]),
  (true, [Tok.cls Quant.plus notNlSemi])] }

/-- `/Generated by ([^,\n\r;]+)/i` (the printer-side variant, line 261). -/
def generatedByPat : Pat := { segs := [
  (false, lits "Generated by "),
  (true, [Tok.cls Quant.plus notCommaNlSemi])] }

/-- The body of the per-line loop of `extractGcodePrinterInfo`
(lines 249-272): first the printer-comment check, then — on the same
line — the `Generated by` check; `none` means the loop continues with the
next line. -/
def gcodeLineResult (line : List Char) : Option PrinterInfo :=
  let trimmedLine := trimJS line
  let fromPrinter : Option PrinterInfo :=
    if List.isPrefixOf (str ";") trimmedLine && includesL trimmedLine (str "printer") then
      match reMatch printerLinePat trimmedLine with
      | some caps => some (parsePrinterName (trimJS (caps.headD [])))
      | none => none
    else none
  match fromPrinter with
  | some pi => some pi
  | none =>
    if includesL trimmedLine (str "Generated by") then
      match reMatch generatedByPat trimmedLine with
      | some caps =>
        let slicerInfo := trimJS (caps.headD [])
        if includesL slicerInfo (str "Prusa") then
          some { name := str "Prusa Printer", brand := str "Prusa Research" }
        else if includesL slicerInfo (str "Cura") then
          some { name := str "Generic Printer", brand := str "Generic" }
        else none
      | none => none
    else none

/-- The line loop of `extractGcodePrinterInfo`: first line yielding a
result wins. -/
def gcodeLineScan : List (List Char) → Option PrinterInfo
  | [] => none
  | line :: rest =>
    match gcodeLineResult line with
    | some pi => some pi
    | none => gcodeLineScan rest

/-- `extractGcodePrinterInfo` (lines 244-278): split the text on `'\n'`,
keep the first 50 lines, scan them in order; a failing text read lands in
the `catch` and yields `undefined`. -/
def extractGcodePrinterInfo (file : InputFile) : Option PrinterInfo :=
  match file.text with
  | none => none
  | some text => gcodeLineScan ((splitOnChar '\n' text).take 50)

/-! ## Slicer extraction -/

/-- `/Generated by ([^\n\r;]+)/i` (the slicer-side variant, line 398). -/
def generatedByLoosePat : Pat := { segs := [
  (false, lits "Generated by "),
  (true, [Tok.cls Quant.plus notNlSemi])] }

/-- `/([^0-9]+)\s*([\d.]+)/` (no `i` flag; line 401). -/
def versionSplitPat : Pat := { ci := false, segs := [
  (true, [Tok.cls Quant.plus nonDigit]),
  (false, [Tok.cls Quant.star isSpaceJS]),
  (true, [Tok.cls Quant.plus digitDot])] }

/-- `/([\d.]+)/` (no flag; line 373). -/
def versionOnlyPat : Pat := { ci := false, segs := [
  (true, [Tok.cls Quant.plus digitDot])] }

/-- The line loop of `extractGcodeSlicerInfo` (lines 394-415). -/
def gcodeSlicerScan : List (List Char) → Option SlicerInfo
  | [] => none
  | line :: rest =>
    let trimmedLine := trimJS line
    if includesL trimmedLine (str "Generated by") then
      match reMatch generatedByLoosePat trimmedLine with
      | some caps =>
        let slicerText := trimJS (caps.headD [])
        match reMatch versionSplitPat slicerText with
        | some vcaps =>
          some { name := trimJS (vcaps.headD []), version := some (vcaps.getD 1 []) }
        | none => some { name := slicerText }
      | none => gcodeSlicerScan rest
    else gcodeSlicerScan rest

/-- `extractGcodeSlicerInfo` (lines 389-421): first 30 lines. -/
def extractGcodeSlicerInfo (file : InputFile) : Option SlicerInfo :=
  match file.text with
  | none => none
  | some text => gcodeSlicerScan ((splitOnChar '\n' text).take 30)

/-- One row of the `slicerPatterns` table of `extract3mfSlicerInfo`. -/
structure SlicerPattern where
  pattern : Pat
  name : List Char

/-- A tool-name-with-version row: `/<tool>\s+([\d.]+)/i`. -/
def toolVersionPat (tool : String) : Pat := { segs := [
  (false, lits tool ++ [Tok.cls Quant.plus isSpaceJS]),
  (true, [Tok.cls Quant.plus digitDot])] }

/-- The `slicerPatterns` table of `extract3mfSlicerInfo` (lines 330-360),
row by row. -/
def slicerPatterns : List SlicerPattern :=
  [ { pattern := toolVersionPat "PrusaSlicer", name := str "PrusaSlicer" },
    { pattern := toolVersionPat "SuperSlicer", name := str "SuperSlicer" },
    { pattern := toolVersionPat "OrcaSlicer", name := str "OrcaSlicer" },
    { pattern := toolVersionPat "BambuStudio", name := str "Bambu Studio" },
    { pattern := toolVersionPat "Cura", name := str "Ultimaker Cura" },
    { pattern := toolVersionPat "Slic3r", name := str "Slic3r" },
    -- the same tool names without a version capture (lines 340-345)
    { pattern := { segs := [(false, lits "PrusaSlicer")] }, name := str "PrusaSlicer" },
    { pattern := { segs := [(false, lits "SuperSlicer")] }, name := str "SuperSlicer" },
    { pattern := { segs := [(false, lits "OrcaSlicer")] }, name := str "OrcaSlicer" },
    { pattern := { segs := [(false, lits "BambuStudio")] }, name := str "Bambu Studio" },
    { pattern := { segs := [(false, lits "Cura")] }, name := str "Ultimaker Cura" },
    { pattern := { segs := [(false, lits "Slic3r")] }, name := str "Slic3r" },
    -- /<metadata.*name=["']slicer["'].*?value=["']([^"']+)["']/i
    { pattern := { segs := [
        (false, lits "<metadata" ++ [dotStar] ++ lits "name=" ++ [q1] ++ lits "slicer" ++ [q1, dotStarL] ++ lits "value=" ++ [q1]),
        (true, [Tok.cls Quant.plus notQuote]),
        (false, [q1])] },
      name := str "Slicer" },
    -- /<metadata.*name=["']application["'].*?value=["']([^"']+)["']/i
    { pattern := { segs := [
        (false, lits "<metadata" ++ [dotStar] ++ lits "name=" ++ [q1] ++ lits "application" ++ [q1, dotStarL] ++ lits "value=" ++ [q1]),
        (true, [Tok.cls Quant.plus notQuote]),
        (false, [q1])] },
      name := str "Application" },
    -- /<metadata.*name=["']slicer["'].*?>([^<]+)</i
    { pattern := { segs := [
        (false, lits "<metadata" ++ [dotStar] ++ lits "name=" ++ [q1] ++ lits "slicer" ++ [q1, dotStarL, Tok.lit '>']),
        (true, [Tok.cls Quant.plus notLt]),
        (false, [Tok.lit '<'])] },
      name := str "Slicer" },
    -- /<metadata.*name=["']application["'].*?>([^<]+)</i
    { pattern := { segs := [
        (false, lits "<metadata" ++ [dotStar] ++ lits "name=" ++ [q1] ++ lits "application" ++ [q1, dotStarL, Tok.lit '>']),
        (true, [Tok.cls Quant.plus notLt]),
        (false, [Tok.lit '<'])] },
      name := str "Application" },
    -- /generator.*["']([^"']*slic[^"']*)["']/i
    { pattern := { segs := [
        (false, lits "generator" ++ [dotStar, q1]),
        (true, [Tok.cls Quant.star notQuote] ++ lits "slic" ++ [Tok.cls Quant.star notQuote]),
        (false, [q1])] },
      name := str "Slicer" },
    -- /application.*name.*["']([^"']*slic[^"']*)["']/i
    { pattern := { segs := [
        (false, lits "application" ++ [dotStar] ++ lits "name" ++ [dotStar, q1]),
        (true, [Tok.cls Quant.star notQuote] ++ lits "slic" ++ [Tok.cls Quant.star notQuote]),
        (false, [q1])] },
      name := str "Slicer" },
    -- /createdBy.*["']([^"']*slic[^"']*)["']/i
    { pattern := { segs := [
        (false, lits "createdBy" ++ [dotStar, q1]),
        (true, [Tok.cls Quant.star notQuote] ++ lits "slic" ++ [Tok.cls Quant.star notQuote]),
        (false, [q1])] },
      name := str "Slicer" },
    -- /tool.*["']([^"']*slic[^"']*)["']/i
    { pattern := { segs := [
        (false, lits "tool" ++ [dotStar, q1]),
        (true, [Tok.cls Quant.star notQuote] ++ lits "slic" ++ [Tok.cls Quant.star notQuote]),
        (false, [q1])] },
      name := str "Slicer" } ]

/-- `match[1].replace(/[\d.\s]+$/, '')`: strip the trailing run of
digits, dots and spaces. -/
def stripTrailingVersion (s : List Char) : List Char :=
  (s.reverse.dropWhile digitDotSpace).reverse

/-- The pattern loop of `extract3mfSlicerInfo` (lines 362-380).  No row
of the table has two capture groups, so the `match[2]` branch of the
source is unreachable; a match without a capture group (`match[1]`
undefined, the bare tool-name rows) returns nothing and the loop
continues, exactly as in the source. -/
def runSlicerPatterns : List SlicerPattern → List Char → Option SlicerInfo
  | [], _ => none
  | sp :: rest, allContent =>
    match reMatch sp.pattern allContent with
    | some caps =>
      match caps.head? with
      | some m1 =>
        let versionMatch := reMatch versionOnlyPat m1
        some { name :=
                 if sp.name == str "Slicer" || sp.name == str "Application" then
                   trimJS (stripTrailingVersion m1)
                 else sp.name,
               version := versionMatch.map (fun vc => vc.headD []) }
      | none => runSlicerPatterns rest allContent
    | none => runSlicerPatterns rest allContent

/-- `extract3mfSlicerInfo` (lines 304-387). -/
def extract3mfSlicerInfo (file : InputFile) : Option SlicerInfo :=
  match file.zip with
  | none => none
  | some zip => runSlicerPatterns slicerPatterns (combinedContent zip)

/-! ## Print settings (`extractGcodePrintSettings`, lines 427-461) -/

/-- The digits of a decimal numeral as a natural number. -/
def digitsToNat (s : List Char) : Nat :=
  s.foldl (fun n c => 10 * n + (c.toNat - 48)) 0

/-- `parseFloat`, modelled on the digit-and-dot strings the `[\d.]+`
captures produce: integer digits, then optionally a dot and fraction
digits (a second dot and anything after it is ignored, as in JS); no
digit at all is NaN. -/
def parseFloatJS (s : List Char) : JSNumber :=
  let intPart := s.takeWhile Char.isDigit
  let rest := s.drop intPart.length
  let fracPart :=
    match rest with
    | c :: r => if c == '.' then r.takeWhile Char.isDigit else []
    | [] => []
  if intPart.isEmpty && fracPart.isEmpty then JSNumber.nan
  else JSNumber.val ((digitsToNat intPart : ℚ)
    + (digitsToNat fracPart : ℚ) / ((10 : ℚ) ^ fracPart.length))

/-- `/layer_height\s*[:=]\s*([\d.]+)/i`. -/
def layerHeightPat : Pat := { segs := [
  (false, lits "layer_height" ++ [Tok.cls Quant.star isSpaceJS, Tok.cls Quant.one colonOrEq, Tok.cls Quant.star isSpaceJS]),
  (true, [Tok.cls Quant.plus digitDot])] }

/-- `/fill_density\s*[:=]\s*([\d.]+)/i`. -/
def fillDensityPat : Pat := { segs := [
  (false, lits "fill_density" ++ [Tok.cls Quant.star isSpaceJS, Tok.cls Quant.one colonOrEq, Tok.cls Quant.star isSpaceJS]),
  (true, [Tok.cls Quant.plus digitDot])] }

/-- `/temperature\s*[:=]\s*([\d.]+)/i`. -/
def temperaturePat : Pat := { segs := [
  (false, lits "temperature" ++ [Tok.cls Quant.star isSpaceJS, Tok.cls Quant.one colonOrEq, Tok.cls Quant.star isSpaceJS]),
  (true, [Tok.cls Quant.plus digitDot])] }

/-- `/bed_temperature\s*[:=]\s*([\d.]+)/i`. -/
def bedTemperaturePat : Pat := { segs := [
  (false, lits "bed_temperature" ++ [Tok.cls Quant.star isSpaceJS, Tok.cls Quant.one colonOrEq, Tok.cls Quant.star isSpaceJS]),
  (true, [Tok.cls Quant.plus digitDot])] }

/-- The per-line body of `extractGcodePrintSettings` (lines 433-455): the
four `includes`-guarded key checks in source order, each assigning its
field on a successful match. -/
def settingsLineStep (settings : PrintSettings) (line : List Char) : PrintSettings :=
  let trimmedLine := trimJS line
  let s1 :=
    if includesL trimmedLine (str "layer_height") then
      match reMatch layerHeightPat trimmedLine with
      | some caps => { settings with layerHeight := some (parseFloatJS (caps.headD [])) }
      | none => settings
    else settings
  let s2 :=
    if includesL trimmedLine (str "fill_density") then
      match reMatch fillDensityPat trimmedLine with
      | some caps => { s1 with infill := some (parseFloatJS (caps.headD [])) }
      | none => s1
    else s1
  let s3 :=
    if includesL trimmedLine (str "temperature") then
      match reMatch temperaturePat trimmedLine with
      | some caps => { s2 with temperature := some (parseFloatJS (caps.headD [])) }
      | none => s2
    else s2
  if includesL trimmedLine (str "bed_temperature") then
    match reMatch bedTemperaturePat trimmedLine with
    | some caps => { s3 with bedTemperature := some (parseFloatJS (caps.headD [])) }
    | none => s3
  else s3

/-- `Object.keys(settings).length > 0` is false exactly when no field was
ever assigned. -/
def settingsIsEmpty (s : PrintSettings) : Bool :=
  s.layerHeight.isNone && s.infill.isNone && s.printSpeed.isNone
    && s.temperature.isNone && s.bedTemperature.isNone

/-- `extractGcodePrintSettings` (lines 427-461): fold the step over the
first 100 lines; report the settings only if some key was assigned. -/
def extractGcodePrintSettings (file : InputFile) : Option PrintSettings :=
  match file.text with
  | none => none
  | some text =>
    let settings := ((splitOnChar '\n' text).take 100).foldl settingsLineStep {}
    if settingsIsEmpty settings then none else some settings

/-- `extract3mfPrintSettings` (lines 423-425): always the empty settings
object. -/
def extract3mfPrintSettings (_file : InputFile) : Option PrintSettings :=
  some {}

/-! ## Orchestration (`performFileAnalysis`, `performDetailedFileAnalysis`) -/

/-- `performFileAnalysis` (lines 21-48). -/
def performFileAnalysis (file : InputFile) : FileAnalysisResult :=
  let fileType := detectFileType file.name
  if fileType = FileType.TMF then
    let isSliced := is3mfSliced file
    let printerInfo := if isSliced then extractPrinterInfo file else none
    { fileType := fileType, isSliced := isSliced, printerInfo := printerInfo }
  else if fileType = FileType.GCODE then
    { fileType := fileType, isSliced := true, printerInfo := extractGcodePrinterInfo file }
  else
    { fileType := fileType, isSliced := false }

/-- `performDetailedFileAnalysis` (lines 50-73): the basic analysis plus
the byte size, and — per format branch — the slicer info and print
settings.  The two `if`s of the source are exclusive (a result's
`fileType` is never both `TMF` and `GCODE`). -/
def performDetailedFileAnalysis (file : InputFile) : DetailedFileAnalysis :=
  let basicAnalysis := performFileAnalysis file
  let base : DetailedFileAnalysis :=
    { fileType := basicAnalysis.fileType, isSliced := basicAnalysis.isSliced,
      printerInfo := basicAnalysis.printerInfo, fileSize := file.size }
  if basicAnalysis.fileType = FileType.TMF && basicAnalysis.isSliced then
    { base with slicerInfo := extract3mfSlicerInfo file,
                printSettings := extract3mfPrintSettings file }
  else if basicAnalysis.fileType = FileType.GCODE then
    { base with slicerInfo := extractGcodeSlicerInfo file,
                printSettings := extractGcodePrintSettings file }
  else base

/-! ## Specification-side definitions and concrete inputs

`extensionTable` renders the specification's fixed extension table; the
concrete `InputFile`s below are the inputs at which individual claims are
witnessed or refuted. -/

/-- The extension table of the specification, section 3: `stl` is a mesh
source, `3mf` a manufacturing container, `gcode`/`g` machine code,
anything else unknown. -/
def extensionTable (extension : List Char) : FileType :=
  if extension == str "stl" then FileType.STL
  else if extension == str "3mf" then FileType.TMF
  else if extension == str "gcode" then FileType.GCODE
  else if extension == str "g" then FileType.GCODE
  else FileType.UNKNOWN

/-- A container holding only `Metadata/model_settings.config` with
content `"x"`: no `gcode_file` marker, no machine-code entry. -/
def msOnlyZip : ZipFile :=
  { entries := [{ name := str "Metadata/model_settings.config", content := some (str "x") }] }

/-- The 3MF input wrapping `msOnlyZip`. -/
def msOnlyFile : InputFile :=
  { name := str "a.3mf", text := none, zip := some msOnlyZip, size := 1 }

/-- An entirely empty container. -/
def empty3mfZip : ZipFile := { entries := [] }

/-- The 3MF input wrapping `empty3mfZip`. -/
def empty3mfFile : InputFile :=
  { name := str "e.3mf", text := none, zip := some empty3mfZip, size := 0 }

/-- A container holding only the machine-code entry `Prints/a.gcode`. -/
def gcodeEntryZip : ZipFile :=
  { entries := [{ name := str "Prints/a.gcode", content := some [] }] }

/-- The 3MF input wrapping `gcodeEntryZip`. -/
def gcodeEntryFile : InputFile :=
  { name := str "b.3mf", text := none, zip := some gcodeEntryZip, size := 2 }

/-- A container holding only an `auxiliary` entry. -/
def auxEntryZip : ZipFile :=
  { entries := [{ name := str "auxiliary/pic.png", content := some (str "img") }] }

/-- The 3MF input wrapping `auxEntryZip`. -/
def auxEntryFile : InputFile :=
  { name := str "d.3mf", text := none, zip := some auxEntryZip, size := 3 }

/-- A container whose project settings name two compatible printers. -/
def multiPrinterZip : ZipFile :=
  { entries := [{ name := str "Metadata/project_settings.config",
                  content := some (str "printer_model=\"X1C\" printer_model=\"P1S\"") }] }

/-- The 3MF input wrapping `multiPrinterZip`. -/
def multiPrinterFile : InputFile :=
  { name := str "c.3mf", text := none, zip := some multiPrinterZip, size := 64 }

/-- A plain machine-code input with an uninformative header. -/
def plainGcodeFile : InputFile :=
  { name := str "x.gcode", text := some (str "; hello"), zip := none, size := 7 }

/-- A plain mesh-source input. -/
def plainStlFile : InputFile :=
  { name := str "x.stl", text := none, zip := none, size := 5 }

/-- A machine-code input whose `Generated by` comment precedes its
printer comment. -/
def gcodePreemptFile : InputFile :=
  { name := str "a.gcode",
    text := some (str "; Generated by PrusaSlicer 2.7.0\n; printer: Bambu X1C"),
    zip := none, size := 54 }

/-- A machine-code input whose first line is a printer comment. -/
def printerCommentFile : InputFile :=
  { name := str "b.gcode", text := some (str "; printer: Prusa MK4\nG1 X0 Y0"),
    zip := none, size := 29 }

/-- A sliced container input for the detailed-analysis witness. -/
def sampleSlicedZip : ZipFile :=
  { entries := [{ name := str "Metadata/info", content := some (str "x") }] }

/-- The 3MF input wrapping `sampleSlicedZip`. -/
def sampleSlicedFile : InputFile :=
  { name := str "s.3mf", text := none, zip := some sampleSlicedZip, size := 10 }

/-- A machine-code input for the detailed-analysis witness. -/
def sampleGcodeFile : InputFile :=
  { name := str "s.gcode", text := some (str "; test"), zip := none, size := 6 }

/-- A machine-code input whose only header line is a bed-temperature
setting. -/
def bedTempFile : InputFile :=
  { name := str "w.gcode", text := some (str "bed_temperature = 60"), zip := none, size := 20 }

/-! ## Helper lemmas: substrings, the engine, the settings fold -/

/-- A needle that is a prefix of the haystack is included in it. -/
lemma includesL_of_isPrefixOf (v s : List Char) (h : v.isPrefixOf s = true) :
    includesL s v = true := by
  cases s with
  | nil =>
    cases v with
    | nil => rfl
    | cons a as => simp [List.isPrefixOf] at h
  | cons c rest => simp [includesL, h]

/-- A suffix of a prefix of the haystack is included in it. -/
lemma includesL_of_isPrefixOf_append (v : List Char) :
    ∀ (u s : List Char), (u ++ v).isPrefixOf s = true → includesL s v = true := by
  intro u
  induction u with
  | nil => exact fun s h => includesL_of_isPrefixOf v s h
  | cons a u' ih =>
    intro s h
    cases s with
    | nil => simp [List.isPrefixOf] at h
    | cons c s' =>
      simp only [List.cons_append, List.isPrefixOf, Bool.and_eq_true] at h
      have := ih s' h.2
      simp [includesL, this]

/-- Substring containment is preserved when the needle is shortened from
the left (`bed_temperature` in the haystack gives `temperature` in it). -/
lemma includesL_append_right (u v : List Char) :
    ∀ hay, includesL hay (u ++ v) = true → includesL hay v = true := by
  intro hay
  induction hay with
  | nil =>
    intro h
    cases u <;> cases v <;> simp_all [includesL]
  | cons c rest ih =>
    intro h
    simp only [includesL, Bool.or_eq_true] at h
    rcases h with h | h
    · exact includesL_of_isPrefixOf_append v u (c :: rest) h
    · have := ih h
      simp [includesL, this]

/-- A needle whose first character occurs nowhere in the haystack is not
included. -/
lemma includesL_false_of_head (c : Char) (needle : List Char) :
    ∀ hay, (∀ x ∈ hay, (x == c) = false) → includesL hay (c :: needle) = false := by
  intro hay
  induction hay with
  | nil => intro _; rfl
  | cons a rest ih =>
    intro h
    have ha : (c == a) = false := by
      have := h a (by simp)
      simp only [beq_eq_false_iff_ne, ne_eq] at this ⊢
      exact fun hh => this hh.symm
    simp only [includesL, List.isPrefixOf, ha, Bool.false_and, Bool.false_or]
    exact ih (fun x hx => h x (by simp [hx]))

/-- Every list is a Boolean prefix of itself followed by anything. -/
lemma isPrefixOf_append_self : ∀ (n rest : List Char), n.isPrefixOf (n ++ rest) = true := by
  intro n
  induction n with
  | nil => intro rest; simp [List.isPrefixOf]
  | cons c cs ih => intro rest; simp [List.isPrefixOf, ih]

/-- Inclusion is preserved by extending the haystack on the left. -/
lemma includesL_cons_of (c : Char) (rest needle : List Char)
    (h : includesL rest needle = true) : includesL (c :: rest) needle = true := by
  simp [includesL, h]

/-- A digit is not a whitespace character. -/
lemma not_space_of_digit (c : Char) (h : c.isDigit = true) : isSpaceJS c = false := by
  simp only [isSpaceJS, Bool.or_eq_false_iff, beq_eq_false_iff_ne, ne_eq]
  refine ⟨⟨⟨⟨⟨?_, ?_⟩, ?_⟩, ?_⟩, ?_⟩, ?_⟩ <;> · intro he; subst he; exact absurd h (by decide)

/-- A digit differs from any non-digit character. -/
lemma digit_ne_char (x : Char) (c : Char) (hx : x.isDigit = true) (hc : c.isDigit = false) :
    (x == c) = false := by
  simp only [beq_eq_false_iff_ne, ne_eq]
  intro he
  subst he
  exact absurd hx (by simp [hc])

/-- When every character matches, the greedy star offers full consumption
first. -/
lemma starSuffixes_all (p : Char → Bool) :
    ∀ (l : List Char), l.all p = true → ∃ t, starSuffixes p l = [] :: t := by
  intro l
  induction l with
  | nil => exact fun _ => ⟨[], rfl⟩
  | cons c rest ih =>
    intro h
    simp only [List.all_cons, Bool.and_eq_true] at h
    rcases ih h.2 with ⟨t, ht⟩
    exact ⟨t ++ [c :: rest], by simp [starSuffixes, h.1, ht]⟩

/-- Search over a single candidate is just application. -/
lemma firstSome_singleton (a : α) (f : α → Option β) : firstSome [a] f = f a := by
  cases h : f a <;> simp [firstSome, h]

/-- A character always matches itself, with or without the `i` flag. -/
lemma charEqCI_self (ci : Bool) (c : Char) : charEqCI ci c c = true := by
  cases ci <;> simp [charEqCI]

/-- A run of literal tokens consumes exactly the corresponding input
prefix. -/
lemma seqFirst_lits_append (ci : Bool) (ts : List Tok) (k : List Char → Option α) :
    ∀ (w s : List Char), seqFirst ci (w.map Tok.lit ++ ts) (w ++ s) k = seqFirst ci ts s k := by
  intro w
  induction w with
  | nil => intro s; rfl
  | cons c cs ih =>
    intro s
    simp only [List.map_cons, List.cons_append, seqFirst, tokSuffixes, charEqCI_self, if_true]
    rw [firstSome_singleton]
    exact ih s

/-- A pattern beginning with a literal cannot match at a position whose
character differs from that literal. -/
lemma matchHere_lit_head_fail (p : Pat) (c : Char) (ts : List Tok) (cap : Bool)
    (rest : List (Bool × List Tok)) (hp : p.segs = (cap, Tok.lit c :: ts) :: rest)
    (x : Char) (s : List Char) (hx : charEqCI p.ci x c = false) :
    matchHere p (x :: s) = none := by
  unfold matchHere
  rw [hp]
  simp [segsFirst, seqFirst, tokSuffixes, hx, firstSome]

/-- Leftmost search steps past a position with no match. -/
lemma matchFrom_cons_none (p : Pat) (x : Char) (s : List Char)
    (h : matchHere p (x :: s) = none) : matchFrom p (x :: s) = matchFrom p s := by
  simp [matchFrom, h]

/-- Leftmost search returns the match at the current position when there
is one. -/
lemma matchFrom_cons_some (p : Pat) (x : Char) (s : List Char) (caps : List (List Char))
    (h : matchHere p (x :: s) = some caps) : matchFrom p (x :: s) = some caps := by
  simp [matchFrom, h]

/-- A settings pattern (`key\s*[:=]\s*([\d.]+)`) matches at the start of
`key` + `" = "` + digits and captures exactly the digits. -/
lemma matchHere_settings (w : List Char) (ds : List Char)
    (hne : ds ≠ []) (hall : ds.all Char.isDigit = true) :
    matchHere
      { segs := [(false, w.map Tok.lit
          ++ [Tok.cls Quant.star isSpaceJS, Tok.cls Quant.one colonOrEq, Tok.cls Quant.star isSpaceJS]),
        (true, [Tok.cls Quant.plus digitDot])] }
      (w ++ (' ' :: '=' :: ' ' :: ds)) = some [ds] := by
  rcases ds with _ | ⟨d, ds2⟩
  · exact absurd rfl hne
  simp only [List.all_cons, Bool.and_eq_true] at hall
  have hd : d.isDigit = true := hall.1
  have hds2 : ds2.all Char.isDigit = true := hall.2
  have e1 : isSpaceJS ' ' = true := by decide
  have e2 : isSpaceJS '=' = false := by decide
  have e3 : colonOrEq '=' = true := by decide
  have e4 : isSpaceJS d = false := not_space_of_digit d hd
  have e5 : digitDot d = true := by simp [digitDot, hd]
  rcases starSuffixes_all digitDot ds2 (by
    refine List.all_eq_true.mpr ?_
    intro x hx
    have := List.all_eq_true.mp hds2 x hx
    simp [digitDot, this]) with ⟨t, ht⟩
  unfold matchHere
  simp only [segsFirst]
  rw [seqFirst_lits_append]
  simp only [seqFirst, tokSuffixes, starSuffixes, e1, e2, e3, e4, e5, if_true, if_false]
  have hstar : starSuffixes isSpaceJS (' ' :: d :: ds2) = (d :: ds2) :: [' ' :: d :: ds2] := by
    simp [starSuffixes, e1, e4]
  simp only [hstar, firstSome, tokSuffixes, e5, if_true, ht]
  simp [List.take_length]

/-- The same settings pattern matches at the start of `key` + `": "` +
digits and captures exactly the digits. -/
lemma matchHere_settings_colon (w : List Char) (ds : List Char)
    (hne : ds ≠ []) (hall : ds.all Char.isDigit = true) :
    matchHere
      { segs := [(false, w.map Tok.lit
          ++ [Tok.cls Quant.star isSpaceJS, Tok.cls Quant.one colonOrEq, Tok.cls Quant.star isSpaceJS]),
        (true, [Tok.cls Quant.plus digitDot])] }
      (w ++ (':' :: ' ' :: ds)) = some [ds] := by
  rcases ds with _ | ⟨d, ds2⟩
  · exact absurd rfl hne
  simp only [List.all_cons, Bool.and_eq_true] at hall
  have hd : d.isDigit = true := hall.1
  have hds2 : ds2.all Char.isDigit = true := hall.2
  have e1 : isSpaceJS ' ' = true := by decide
  have e2 : isSpaceJS ':' = false := by decide
  have e3 : colonOrEq ':' = true := by decide
  have e4 : isSpaceJS d = false := not_space_of_digit d hd
  have e5 : digitDot d = true := by simp [digitDot, hd]
  rcases starSuffixes_all digitDot ds2 (by
    refine List.all_eq_true.mpr ?_
    intro x hx
    have := List.all_eq_true.mp hds2 x hx
    simp [digitDot, this]) with ⟨t, ht⟩
  unfold matchHere
  simp only [segsFirst]
  rw [seqFirst_lits_append]
  simp only [seqFirst, tokSuffixes, starSuffixes, e1, e2, e3, e4, e5, if_true, if_false]
  have hstar : starSuffixes isSpaceJS (' ' :: d :: ds2) = (d :: ds2) :: [' ' :: d :: ds2] := by
    simp [starSuffixes, e1, e4]
  simp only [firstSome, hstar, tokSuffixes, e5, if_true, ht]
  simp [List.take_length]

/-- On a `bed_temperature = N` line, `temperaturePat` first matches inside
`bed_temperature` (position 4) and captures the digits. -/
lemma reMatch_temperature_bedline (ds : List Char)
    (hne : ds ≠ []) (hall : ds.all Char.isDigit = true) :
    reMatch temperaturePat (str "bed_temperature = " ++ ds) = some [ds] := by
  have hmain : matchHere temperaturePat ((str "temperature") ++ (' ' :: '=' :: ' ' :: ds)) = some [ds] :=
    matchHere_settings (str "temperature") ds hne hall
  have hshape : str "bed_temperature = " ++ ds
      = 'b' :: 'e' :: 'd' :: '_' :: ((str "temperature") ++ (' ' :: '=' :: ' ' :: ds)) := by
    simp [str]
  rw [reMatch, hshape]
  rw [matchFrom_cons_none _ _ _ (matchHere_lit_head_fail _ 't' _ _ _ rfl 'b' _ (by decide))]
  rw [matchFrom_cons_none _ _ _ (matchHere_lit_head_fail _ 't' _ _ _ rfl 'e' _ (by decide))]
  rw [matchFrom_cons_none _ _ _ (matchHere_lit_head_fail _ 't' _ _ _ rfl 'd' _ (by decide))]
  rw [matchFrom_cons_none _ _ _ (matchHere_lit_head_fail _ 't' _ _ _ rfl '_' _ (by decide))]
  cases hsplit : (str "temperature") ++ (' ' :: '=' :: ' ' :: ds) with
  | nil => simp at hsplit
  | cons y ys =>
    rw [← hsplit]
    exact hsplit ▸ (matchFrom_cons_some _ y ys [ds] (hsplit ▸ hmain))

/-- Colon form of `reMatch_temperature_bedline`. -/
lemma reMatch_temperature_bedline_colon (ds : List Char)
    (hne : ds ≠ []) (hall : ds.all Char.isDigit = true) :
    reMatch temperaturePat (str "bed_temperature: " ++ ds) = some [ds] := by
  have hmain : matchHere temperaturePat ((str "temperature") ++ (':' :: ' ' :: ds)) = some [ds] :=
    matchHere_settings_colon (str "temperature") ds hne hall
  have hshape : str "bed_temperature: " ++ ds
      = 'b' :: 'e' :: 'd' :: '_' :: ((str "temperature") ++ (':' :: ' ' :: ds)) := by
    simp [str]
  rw [reMatch, hshape]
  rw [matchFrom_cons_none _ _ _ (matchHere_lit_head_fail _ 't' _ _ _ rfl 'b' _ (by decide))]
  rw [matchFrom_cons_none _ _ _ (matchHere_lit_head_fail _ 't' _ _ _ rfl 'e' _ (by decide))]
  rw [matchFrom_cons_none _ _ _ (matchHere_lit_head_fail _ 't' _ _ _ rfl 'd' _ (by decide))]
  rw [matchFrom_cons_none _ _ _ (matchHere_lit_head_fail _ 't' _ _ _ rfl '_' _ (by decide))]
  cases hsplit : (str "temperature") ++ (':' :: ' ' :: ds) with
  | nil => simp at hsplit
  | cons y ys =>
    rw [← hsplit]
    exact hsplit ▸ (matchFrom_cons_some _ y ys [ds] (hsplit ▸ hmain))

/-- On a `bed_temperature = N` line, `bedTemperaturePat` matches at the
start and captures the digits. -/
lemma reMatch_bed_bedline (ds : List Char)
    (hne : ds ≠ []) (hall : ds.all Char.isDigit = true) :
    reMatch bedTemperaturePat (str "bed_temperature = " ++ ds) = some [ds] := by
  have hmain : matchHere bedTemperaturePat ((str "bed_temperature") ++ (' ' :: '=' :: ' ' :: ds)) = some [ds] :=
    matchHere_settings (str "bed_temperature") ds hne hall
  have hshape : str "bed_temperature = " ++ ds
      = (str "bed_temperature") ++ (' ' :: '=' :: ' ' :: ds) := by
    simp [str]
  rw [reMatch, hshape]
  cases hsplit : (str "bed_temperature") ++ (' ' :: '=' :: ' ' :: ds) with
  | nil => simp at hsplit
  | cons y ys =>
    rw [← hsplit]
    exact hsplit ▸ (matchFrom_cons_some _ y ys [ds] (hsplit ▸ hmain))

/-- Colon form of `reMatch_bed_bedline`. -/
lemma reMatch_bed_bedline_colon (ds : List Char)
    (hne : ds ≠ []) (hall : ds.all Char.isDigit = true) :
    reMatch bedTemperaturePat (str "bed_temperature: " ++ ds) = some [ds] := by
  have hmain : matchHere bedTemperaturePat ((str "bed_temperature") ++ (':' :: ' ' :: ds)) = some [ds] :=
    matchHere_settings_colon (str "bed_temperature") ds hne hall
  have hshape : str "bed_temperature: " ++ ds
      = (str "bed_temperature") ++ (':' :: ' ' :: ds) := by
    simp [str]
  rw [reMatch, hshape]
  cases hsplit : (str "bed_temperature") ++ (':' :: ' ' :: ds) with
  | nil => simp at hsplit
  | cons y ys =>
    rw [← hsplit]
    exact hsplit ▸ (matchFrom_cons_some _ y ys [ds] (hsplit ▸ hmain))

/-- A bed-temperature line does not mention `layer_height`. -/
lemma bedline_no_layer_height (ds : List Char) (hall : ds.all Char.isDigit = true) :
    includesL (str "bed_temperature = " ++ ds) (str "layer_height") = false := by
  have : str "layer_height" = 'l' :: str "ayer_height" := rfl
  rw [this]
  apply includesL_false_of_head
  intro x hx
  rcases List.mem_append.mp hx with h | h
  · exact (by decide : ∀ x ∈ str "bed_temperature = ", (x == 'l') = false) x h
  · exact digit_ne_char x 'l' (List.all_eq_true.mp hall x h) (by decide)

/-- Colon form of `bedline_no_layer_height`. -/
lemma bedline_colon_no_layer_height (ds : List Char) (hall : ds.all Char.isDigit = true) :
    includesL (str "bed_temperature: " ++ ds) (str "layer_height") = false := by
  have : str "layer_height" = 'l' :: str "ayer_height" := rfl
  rw [this]
  apply includesL_false_of_head
  intro x hx
  rcases List.mem_append.mp hx with h | h
  · exact (by decide : ∀ x ∈ str "bed_temperature: ", (x == 'l') = false) x h
  · exact digit_ne_char x 'l' (List.all_eq_true.mp hall x h) (by decide)

/-- A bed-temperature line does not mention `fill_density`. -/
lemma bedline_no_fill_density (ds : List Char) (hall : ds.all Char.isDigit = true) :
    includesL (str "bed_temperature = " ++ ds) (str "fill_density") = false := by
  have : str "fill_density" = 'f' :: str "ill_density" := rfl
  rw [this]
  apply includesL_false_of_head
  intro x hx
  rcases List.mem_append.mp hx with h | h
  · exact (by decide : ∀ x ∈ str "bed_temperature = ", (x == 'f') = false) x h
  · exact digit_ne_char x 'f' (List.all_eq_true.mp hall x h) (by decide)

/-- Colon form of `bedline_no_fill_density`. -/
lemma bedline_colon_no_fill_density (ds : List Char) (hall : ds.all Char.isDigit = true) :
    includesL (str "bed_temperature: " ++ ds) (str "fill_density") = false := by
  have : str "fill_density" = 'f' :: str "ill_density" := rfl
  rw [this]
  apply includesL_false_of_head
  intro x hx
  rcases List.mem_append.mp hx with h | h
  · exact (by decide : ∀ x ∈ str "bed_temperature: ", (x == 'f') = false) x h
  · exact digit_ne_char x 'f' (List.all_eq_true.mp hall x h) (by decide)

/-- A bed-temperature line does contain `temperature` (as a substring of
its key). -/
lemma bedline_has_temperature (ds : List Char) :
    includesL (str "bed_temperature = " ++ ds) (str "temperature") = true := by
  have hshape : str "bed_temperature = " ++ ds
      = 'b' :: 'e' :: 'd' :: '_' :: ((str "temperature") ++ (str " = " ++ ds)) := by
    simp [str]
  rw [hshape]
  refine includesL_cons_of _ _ _ (includesL_cons_of _ _ _ (includesL_cons_of _ _ _ (includesL_cons_of _ _ _ ?_)))
  exact includesL_of_isPrefixOf _ _ (isPrefixOf_append_self _ _)

/-- Colon form of `bedline_has_temperature`. -/
lemma bedline_colon_has_temperature (ds : List Char) :
    includesL (str "bed_temperature: " ++ ds) (str "temperature") = true := by
  have hshape : str "bed_temperature: " ++ ds
      = 'b' :: 'e' :: 'd' :: '_' :: ((str "temperature") ++ (str ": " ++ ds)) := by
    simp [str]
  rw [hshape]
  refine includesL_cons_of _ _ _ (includesL_cons_of _ _ _ (includesL_cons_of _ _ _ (includesL_cons_of _ _ _ ?_)))
  exact includesL_of_isPrefixOf _ _ (isPrefixOf_append_self _ _)

/-- A bed-temperature line contains its own key. -/
lemma bedline_has_bed_temperature (ds : List Char) :
    includesL (str "bed_temperature = " ++ ds) (str "bed_temperature") = true := by
  have hshape : str "bed_temperature = " ++ ds
      = (str "bed_temperature") ++ (str " = " ++ ds) := by
    simp [str]
  rw [hshape]
  exact includesL_of_isPrefixOf _ _ (isPrefixOf_append_self _ _)

/-- Colon form of `bedline_has_bed_temperature`. -/
lemma bedline_colon_has_bed_temperature (ds : List Char) :
    includesL (str "bed_temperature: " ++ ds) (str "bed_temperature") = true := by
  have hshape : str "bed_temperature: " ++ ds
      = (str "bed_temperature") ++ (str ": " ++ ds) := by
    simp [str]
  rw [hshape]
  exact includesL_of_isPrefixOf _ _ (isPrefixOf_append_self _ _)

/-- A line without the substring `temperature` leaves the temperature and
bed-temperature fields of the settings untouched. -/
lemma settings_step_preserves (s : PrintSettings) (l : List Char)
    (h : includesL (trimJS l) (str "temperature") = false) :
    (settingsLineStep s l).temperature = s.temperature ∧
    (settingsLineStep s l).bedTemperature = s.bedTemperature := by
  have hbed : includesL (trimJS l) (str "bed_temperature") = false := by
    cases hb : includesL (trimJS l) (str "bed_temperature") with
    | false => rfl
    | true =>
      have : includesL (trimJS l) (str "temperature") = true := by
        have hsh : str "bed_temperature" = str "bed_" ++ str "temperature" := rfl
        exact includesL_append_right (str "bed_") (str "temperature") (trimJS l) (hsh ▸ hb)
      rw [this] at h
      exact absurd h (by simp)
  unfold settingsLineStep
  simp only [h, hbed, Bool.false_eq_true, if_false]
  constructor <;> (repeat' split) <;> simp

/-- Folding the settings step over temperature-free lines preserves the
temperature and bed-temperature fields. -/
lemma settings_fold_preserves (ls : List (List Char)) :
    ∀ (s : PrintSettings), (∀ l ∈ ls, includesL (trimJS l) (str "temperature") = false) →
      (ls.foldl settingsLineStep s).temperature = s.temperature ∧
      (ls.foldl settingsLineStep s).bedTemperature = s.bedTemperature := by
  induction ls with
  | nil => exact fun s _ => ⟨rfl, rfl⟩
  | cons a as ih =>
    intro s h
    have ha := settings_step_preserves s a (h a (by simp))
    have := ih (settingsLineStep s a) (fun l hl => h l (by simp [hl]))
    simp only [List.foldl_cons]
    exact ⟨this.1.trans ha.1, this.2.trans ha.2⟩

/-- The settings step on a `bed_temperature = N` line sets both the
temperature and the bed-temperature field to the parsed digits. -/
lemma settings_step_bedline (s : PrintSettings) (bl ds : List Char)
    (htrim : trimJS bl = str "bed_temperature = " ++ ds)
    (hne : ds ≠ []) (hall : ds.all Char.isDigit = true) :
    (settingsLineStep s bl).temperature = some (parseFloatJS ds) ∧
    (settingsLineStep s bl).bedTemperature = some (parseFloatJS ds) := by
  unfold settingsLineStep
  rw [htrim]
  simp only [bedline_no_layer_height ds hall, bedline_no_fill_density ds hall,
    bedline_has_temperature ds, bedline_has_bed_temperature ds,
    reMatch_temperature_bedline ds hne hall, reMatch_bed_bedline ds hne hall,
    Bool.false_eq_true, if_false, if_true]
  simp

/-- Colon form of `settings_step_bedline`. -/
lemma settings_step_bedline_colon (s : PrintSettings) (bl ds : List Char)
    (htrim : trimJS bl = str "bed_temperature: " ++ ds)
    (hne : ds ≠ []) (hall : ds.all Char.isDigit = true) :
    (settingsLineStep s bl).temperature = some (parseFloatJS ds) ∧
    (settingsLineStep s bl).bedTemperature = some (parseFloatJS ds) := by
  unfold settingsLineStep
  rw [htrim]
  simp only [bedline_colon_no_layer_height ds hall, bedline_colon_no_fill_density ds hall,
    bedline_colon_has_temperature ds, bedline_colon_has_bed_temperature ds,
    reMatch_temperature_bedline_colon ds hne hall, reMatch_bed_bedline_colon ds hne hall,
    Bool.false_eq_true, if_false, if_true]
  simp

/-- A character-wise different first letter makes the split keep the
whole string in one piece. -/
lemma splitOnChar_of_not_contains (c : Char) (s : List Char) (h : s.contains c = false) :
    splitOnChar c s = [s] := by
  induction s with
  | nil => rfl
  | cons x xs ih =>
    simp only [List.contains_cons, Bool.or_eq_false_iff] at h
    have hx : (x == c) = false := by
      rcases h with ⟨h1, _⟩
      simp only [beq_eq_false_iff_ne, ne_eq] at h1 ⊢
      exact fun hh => h1 hh.symm
    simp only [splitOnChar, hx, ih h.2]
    simp

/-- The branch results of `parsePrinterName`: the name is either passed
through or one of the six canonical model names. -/
lemma parsePrinterName_name_cases (s : List Char) :
    (parsePrinterName s).name = s ∨
      (parsePrinterName s).name ∈ [str "i3 MK3S+", str "MK4", str "MINI+", str "XL",
        str "X1 Carbon", str "A1 mini"] := by
  simp only [parsePrinterName]
  split_ifs <;> simp

/-! ## The claims -/

/-- Claim C1, counterexample: a container whose `Metadata/model_settings.config`
has no `gcode_file` marker and which has no entry ending in `.gcode` or
`.g` is nevertheless reported sliced, because the entry name contains
`Metadata/`.  The claim's conclusion `isSliced = false` fails. -/
theorem metadata_only_container_reported_sliced :
    msOnlyZip.file (str "Metadata/model_settings.config")
      = some { name := str "Metadata/model_settings.config", content := some (str "x") } ∧
    includesL (str "x") (str "gcode_file") = false ∧
    msOnlyZip.entries.all
      (fun e => !(List.isSuffixOf (str ".gcode") e.name || List.isSuffixOf (str ".g") e.name)) = true ∧
    detectFileType msOnlyFile.name = FileType.TMF ∧
    (performFileAnalysis msOnlyFile).isSliced = true := by
  decide

/-- Claim C1 (amended): a 3MF container is reported unsliced with printer
info absent when none of the code's three signals fires: no entry name
contains `Metadata/` or `auxiliary`, the `3D/3dmodel.model` check does
not report an indicator, and the metadata/auxiliary/config sweep finds no
`slic`/`print`/`layer` content. -/
theorem no_signal_container_unsliced (f : InputFile) (z : ZipFile)
    (hz : f.zip = some z)
    (ht : detectFileType f.name = FileType.TMF)
    (h1 : (z.entries.map ZipEntry.name).any
        (fun n => includesL n (str "Metadata/") || includesL n (str "auxiliary")) = false)
    (h2 : modelFileCheck z ≠ some true)
    (h3 : auxFilesCheck z (z.entries.map ZipEntry.name) ≠ some true) :
    (performFileAnalysis f).isSliced = false ∧ (performFileAnalysis f).printerInfo = none := by
  have hs : is3mfSliced f = false := by
    unfold is3mfSliced
    rw [hz]
    simp only [h1]
    rcases hm : modelFileCheck z with _ | b
    · simp
    · cases b
      · rcases ha : auxFilesCheck z (z.entries.map ZipEntry.name) with _ | b2
        · simp
        · cases b2
          · simp
          · exact absurd ha h3
      · exact absurd hm h2
  simp [performFileAnalysis, ht, hs]

/-- Claim C1, witness: the empty container is reported unsliced with no
printer info. -/
theorem no_signal_container_unsliced_witness :
    (performFileAnalysis empty3mfFile).isSliced = false ∧
    (performFileAnalysis empty3mfFile).printerInfo = none :=
  no_signal_container_unsliced empty3mfFile empty3mfZip rfl (by decide) (by decide)
    (by decide) (by decide)

/-- Claim C2, counterexample: a container whose only entry is
`Prints/a.gcode` (a machine-code entry, no `gcode_file` marker anywhere)
is reported `isSliced = false`, not `true` as the claim demands: the code
never looks at entry-name extensions. -/
theorem gcode_entry_container_reported_unsliced :
    gcodeEntryZip.file (str "Metadata/model_settings.config") = none ∧
    List.isSuffixOf (str ".gcode") (str "Prints/a.gcode") = true ∧
    detectFileType gcodeEntryFile.name = FileType.TMF ∧
    (performFileAnalysis gcodeEntryFile).isSliced = false := by
  decide

/-- Claim C2 (amended): a 3MF container is reported sliced when some
entry name contains `Metadata/` or `auxiliary` — the code's actual first
signal, in place of the claimed machine-code-extension signal. -/
theorem metadata_entry_container_sliced (f : InputFile) (z : ZipFile)
    (hz : f.zip = some z)
    (ht : detectFileType f.name = FileType.TMF)
    (h : (z.entries.map ZipEntry.name).any
        (fun n => includesL n (str "Metadata/") || includesL n (str "auxiliary")) = true) :
    (performFileAnalysis f).isSliced = true := by
  have hs : is3mfSliced f = true := by
    unfold is3mfSliced
    rw [hz]
    simp only [h]
    simp
  simp [performFileAnalysis, ht, hs]

/-- Claim C2, witness: a container with an `auxiliary` entry is reported
sliced. -/
theorem metadata_entry_container_sliced_witness :
    (performFileAnalysis auxEntryFile).isSliced = true :=
  metadata_entry_container_sliced auxEntryFile auxEntryZip rfl (by decide) (by decide)

/-- Claim C3: on a sliced container whose metadata names two compatible
printers, the analysis yields a single `PrinterInfo` record (the first
regex match, with the `Generic` brand), not the ordered sequence of
catalog results that the spec and the declared
`FileAnalysisResult.printerInfo : PrinterInfo[]` type require — the
service assigns `PrinterInfo | undefined` where its own `types.ts`
declares an array. -/
theorem printer_info_single_record_not_sequence :
    is3mfSliced multiPrinterFile = true ∧
    includesL (str "printer_model=\"X1C\" printer_model=\"P1S\"") (str "printer_model=\"P1S\"") = true ∧
    (performFileAnalysis multiPrinterFile).printerInfo
      = some { name := str "X1C", brand := str "Generic", model := some (str "X1C") } := by
  decide

/-- Claim C4: a machine-code result is always sliced, whatever the bytes;
a mesh-source result is never sliced and carries no printer info. -/
theorem machineCode_meshSource_slicing (f : InputFile) :
    ((performFileAnalysis f).fileType = FileType.GCODE → (performFileAnalysis f).isSliced = true) ∧
    ((performFileAnalysis f).fileType = FileType.STL →
      (performFileAnalysis f).isSliced = false ∧ (performFileAnalysis f).printerInfo = none) := by
  cases h : detectFileType f.name <;> simp [performFileAnalysis, h]

/-- Claim C4, witness: instances of both implications at concrete
inputs. -/
theorem machineCode_meshSource_slicing_witness :
    (performFileAnalysis plainGcodeFile).isSliced = true ∧
    (performFileAnalysis plainStlFile).isSliced = false ∧
    (performFileAnalysis plainStlFile).printerInfo = none :=
  ⟨(machineCode_meshSource_slicing plainGcodeFile).1 (by decide),
   ((machineCode_meshSource_slicing plainStlFile).2 (by decide)).1,
   ((machineCode_meshSource_slicing plainStlFile).2 (by decide)).2⟩

/-- Claim C5, counterexample: the file name `stl` has no `.` in it, yet
it classifies as a mesh source, not as `Unknown` as the claim demands:
`split('.').pop()` on a dot-free name returns the whole name. -/
theorem classification_no_dot_counterexample :
    (str "stl").contains '.' = false ∧
    detectFileType (str "stl") = FileType.STL ∧
    FileType.STL ≠ FileType.UNKNOWN := by
  decide

/-- Claim C5 (amended): classification lowercases the name, splits on
`'.'` and matches the last piece against the fixed table; a name without
any `.` is matched whole against the table (so `stl` classifies
MeshSource), rather than yielding `Unknown`. -/
theorem classification_last_extension (nm : List Char) :
    detectFileType nm = extensionTable ((splitOnChar '.' (toLowerL nm)).getLastD []) ∧
    ((toLowerL nm).contains '.' = false → detectFileType nm = extensionTable (toLowerL nm)) := by
  constructor
  · rfl
  · intro h
    unfold detectFileType
    rw [splitOnChar_of_not_contains _ _ h]
    rfl

/-- Claim C5, witness: the table form at a dotted and at a dot-free
name. -/
theorem classification_last_extension_witness :
    detectFileType (str "Model.OBJ") = extensionTable ((splitOnChar '.' (toLowerL (str "Model.OBJ"))).getLastD []) ∧
    detectFileType (str "model") = extensionTable (toLowerL (str "model")) :=
  ⟨(classification_last_extension (str "Model.OBJ")).1,
   (classification_last_extension (str "model")).2 (by decide)⟩

/-- Claim C6, counterexample: a `Generated by PrusaSlicer` line on line 1
pre-empts the printer comment on line 2; the analysis returns the
synthesized Prusa record instead of the record the printer comment
determines (`parsePrinterName "Bambu X1C"`), contradicting the claim that
the synthesis is only a fallback for the whole 50-line window. -/
theorem generated_by_preempts_printer_comment :
    extractGcodePrinterInfo gcodePreemptFile
      = some { name := str "Prusa Printer", brand := str "Prusa Research" } ∧
    (splitOnChar '\n' (str "; Generated by PrusaSlicer 2.7.0\n; printer: Bambu X1C")).getD 1 []
      = str "; printer: Bambu X1C" ∧
    gcodeLineResult (str "; printer: Bambu X1C")
      = some { name := str "X1 Carbon", brand := str "Bambu Lab" } ∧
    ({ name := str "Prusa Printer", brand := str "Prusa Research" } : PrinterInfo)
      ≠ { name := str "X1 Carbon", brand := str "Bambu Lab" } := by
  decide

/-- Claim C6 (amended): the header scan examines the first 50 lines in
order and stops at the first line that yields either signal — a printer
comment or a `Generated by` Prusa/Cura synthesis; whichever line comes
first wins, so an earlier `Generated by` line does pre-empt a later
printer comment. -/
theorem first_signal_line_wins (f : InputFile) (t : List Char)
    (pre post : List (List Char)) (line : List Char) (pi : PrinterInfo)
    (htext : f.text = some t)
    (hsplit : (splitOnChar '\n' t).take 50 = pre ++ line :: post)
    (hpre : ∀ l ∈ pre, gcodeLineResult l = none)
    (hline : gcodeLineResult line = some pi) :
    extractGcodePrinterInfo f = some pi := by
  unfold extractGcodePrinterInfo
  rw [htext]
  show gcodeLineScan ((splitOnChar '\n' t).take 50) = some pi
  rw [hsplit]
  clear hsplit htext
  induction pre with
  | nil => simp [gcodeLineScan, hline]
  | cons a as ih =>
    have ha : gcodeLineResult a = none := hpre a (by simp)
    simp only [List.cons_append, gcodeLineScan, ha]
    exact ih (fun l hl => hpre l (by simp [hl]))

/-- Claim C6, witness: a first-line printer comment determines the
result. -/
theorem first_signal_line_wins_witness :
    extractGcodePrinterInfo printerCommentFile
      = some { name := str "MK4", brand := str "Prusa Research" } :=
  first_signal_line_wins printerCommentFile (str "; printer: Prusa MK4\nG1 X0 Y0")
    [] [str "G1 X0 Y0"] (str "; printer: Prusa MK4")
    { name := str "MK4", brand := str "Prusa Research" }
    rfl (by decide) (by simp) (by decide)

/-- Claim C7, counterexample: `Bambu Lab X1` contains `bambu` and `x1`
but neither `carbon`, `x1c` nor `x1e`; the claim requires the name `X1`,
but the code's bambu branch has no such case and yields `X1 Carbon`. -/
theorem bambu_x1_counterexample :
    includesL (toLowerL (str "Bambu Lab X1")) (str "bambu") = true ∧
    includesL (toLowerL (str "Bambu Lab X1")) (str "x1") = true ∧
    includesL (toLowerL (str "Bambu Lab X1")) (str "carbon") = false ∧
    includesL (toLowerL (str "Bambu Lab X1")) (str "x1c") = false ∧
    includesL (toLowerL (str "Bambu Lab X1")) (str "x1e") = false ∧
    parsePrinterName (str "Bambu Lab X1")
      = { name := str "X1 Carbon", brand := str "Bambu Lab" } ∧
    str "X1 Carbon" ≠ str "X1" := by
  decide

/-- Claim C7 (amended): for an identifier containing `bambu` (and not
`prusa`, which is tested first), the code's disambiguation is only:
`x1` anywhere → `X1 Carbon`; else `a1` anywhere → `A1 mini`; else the
raw text — always with brand `Bambu Lab`. -/
theorem bambu_normalization (s : List Char)
    (hb : includesL (toLowerL s) (str "bambu") = true)
    (hp : includesL (toLowerL s) (str "prusa") = false) :
    (parsePrinterName s).brand = str "Bambu Lab" ∧
    (includesL (toLowerL s) (str "x1") = true → (parsePrinterName s).name = str "X1 Carbon") ∧
    (includesL (toLowerL s) (str "x1") = false → includesL (toLowerL s) (str "a1") = true →
      (parsePrinterName s).name = str "A1 mini") ∧
    (includesL (toLowerL s) (str "x1") = false → includesL (toLowerL s) (str "a1") = false →
      (parsePrinterName s).name = s) := by
  simp only [parsePrinterName, hb, hp]
  by_cases hx : includesL (toLowerL s) (str "x1") = true <;>
    by_cases ha : includesL (toLowerL s) (str "a1") = true <;>
      simp_all

/-- Claim C7, witness: `Bambu X1C` normalizes to the X1 Carbon record. -/
theorem bambu_normalization_witness :
    (parsePrinterName (str "Bambu X1C")).brand = str "Bambu Lab" ∧
    (parsePrinterName (str "Bambu X1C")).name = str "X1 Carbon" :=
  ⟨(bambu_normalization (str "Bambu X1C") (by decide) (by decide)).1,
   (bambu_normalization (str "Bambu X1C") (by decide) (by decide)).2.1 (by decide)⟩

/-- Claim C8: one re-normalization reaches a fixed point — normalizing
the name of `normalize(normalize(x).name)` returns that same record. -/
theorem normalize_reaches_fixed_point (s : List Char) :
    parsePrinterName ((parsePrinterName ((parsePrinterName s).name)).name)
      = parsePrinterName ((parsePrinterName s).name) := by
  rcases parsePrinterName_name_cases s with h | h
  · simp only [h]
  · simp only [List.mem_cons, List.not_mem_nil, or_false] at h
    rcases h with h | h | h | h | h | h <;> rw [h] <;> decide

/-- Claim C9: the detailed analysis is total, keeps the basic fields and
the byte size, and each detailed field equals its own extractor's output
— so one extractor degrading to `none` neither fails the call nor
disturbs its sibling's result. -/
theorem extractions_isolated_and_total (f : InputFile) :
    (performDetailedFileAnalysis f).fileSize = f.size ∧
    (performDetailedFileAnalysis f).fileType = (performFileAnalysis f).fileType ∧
    (performDetailedFileAnalysis f).isSliced = (performFileAnalysis f).isSliced ∧
    (performDetailedFileAnalysis f).printerInfo = (performFileAnalysis f).printerInfo ∧
    ((performFileAnalysis f).fileType = FileType.TMF → (performFileAnalysis f).isSliced = true →
      (performDetailedFileAnalysis f).slicerInfo = extract3mfSlicerInfo f ∧
      (performDetailedFileAnalysis f).printSettings = extract3mfPrintSettings f) ∧
    ((performFileAnalysis f).fileType = FileType.GCODE →
      (performDetailedFileAnalysis f).slicerInfo = extractGcodeSlicerInfo f ∧
      (performDetailedFileAnalysis f).printSettings = extractGcodePrintSettings f) := by
  unfold performDetailedFileAnalysis
  rcases h : performFileAnalysis f with ⟨ft, sl, pi⟩
  cases ft <;> cases sl <;> simp

/-- Claim C9, witness: the field equalities at a sliced container and at
a machine-code input. -/
theorem extractions_isolated_and_total_witness :
    (performDetailedFileAnalysis sampleSlicedFile).slicerInfo = extract3mfSlicerInfo sampleSlicedFile ∧
    (performDetailedFileAnalysis sampleSlicedFile).printSettings = extract3mfPrintSettings sampleSlicedFile ∧
    (performDetailedFileAnalysis sampleGcodeFile).slicerInfo = extractGcodeSlicerInfo sampleGcodeFile ∧
    (performDetailedFileAnalysis sampleGcodeFile).printSettings = extractGcodePrintSettings sampleGcodeFile :=
  ⟨((extractions_isolated_and_total sampleSlicedFile).2.2.2.2.1 (by decide) (by decide)).1,
   ((extractions_isolated_and_total sampleSlicedFile).2.2.2.2.1 (by decide) (by decide)).2,
   ((extractions_isolated_and_total sampleGcodeFile).2.2.2.2.2 (by decide)).1,
   ((extractions_isolated_and_total sampleGcodeFile).2.2.2.2.2 (by decide)).2⟩

/-- Claim C10: when one of the first 100 lines is `bed_temperature = N`
(or `bed_temperature: N`) and no other of those lines mentions
`temperature` at all, the extracted settings carry both
`bedTemperature = N` and `temperature = N`: the `includes('temperature')`
guard and `temperaturePat` both match inside `bed_temperature`. -/
theorem bed_temperature_sets_both (f : InputFile) (t : List Char)
    (pre post : List (List Char)) (bl ds : List Char)
    (htext : f.text = some t)
    (hsplit : (splitOnChar '\n' t).take 100 = pre ++ bl :: post)
    (htrim : trimJS bl = str "bed_temperature = " ++ ds ∨ trimJS bl = str "bed_temperature: " ++ ds)
    (hne : ds ≠ []) (hall : ds.all Char.isDigit = true)
    (hpre : ∀ l ∈ pre, includesL (trimJS l) (str "temperature") = false)
    (hpost : ∀ l ∈ post, includesL (trimJS l) (str "temperature") = false) :
    ∃ s, extractGcodePrintSettings f = some s ∧
      s.temperature = some (parseFloatJS ds) ∧
      s.bedTemperature = some (parseFloatJS ds) := by
  have hstep := htrim.elim
    (fun h => settings_step_bedline (pre.foldl settingsLineStep {}) bl ds h hne hall)
    (fun h => settings_step_bedline_colon (pre.foldl settingsLineStep {}) bl ds h hne hall)
  have hfold := settings_fold_preserves post
    (settingsLineStep (pre.foldl settingsLineStep {}) bl) hpost
  have htemp : (post.foldl settingsLineStep
      (settingsLineStep (pre.foldl settingsLineStep {}) bl)).temperature
      = some (parseFloatJS ds) := hfold.1.trans hstep.1
  have hbed : (post.foldl settingsLineStep
      (settingsLineStep (pre.foldl settingsLineStep {}) bl)).bedTemperature
      = some (parseFloatJS ds) := hfold.2.trans hstep.2
  have hnonempty : settingsIsEmpty (post.foldl settingsLineStep
      (settingsLineStep (pre.foldl settingsLineStep {}) bl)) = false := by
    unfold settingsIsEmpty
    rw [htemp]
    simp
  have hmain : extractGcodePrintSettings f = some (post.foldl settingsLineStep
      (settingsLineStep (pre.foldl settingsLineStep {}) bl)) := by
    unfold extractGcodePrintSettings
    rw [htext]
    show (let settings := ((splitOnChar '\n' t).take 100).foldl settingsLineStep {};
      if settingsIsEmpty settings then none else some settings) = _
    rw [hsplit]
    simp only [List.foldl_append, List.foldl_cons]
    rw [hnonempty]
    simp
  exact ⟨_, hmain, htemp, hbed⟩

/-- Claim C10, witness: the input whose single line is
`bed_temperature = 60` carries `temperature = 60` and
`bedTemperature = 60`. -/
theorem bed_temperature_sets_both_witness :
    ∃ s, extractGcodePrintSettings bedTempFile = some s ∧
      s.temperature = some (parseFloatJS (str "60")) ∧
      s.bedTemperature = some (parseFloatJS (str "60")) :=
  bed_temperature_sets_both bedTempFile (str "bed_temperature = 60") [] []
    (str "bed_temperature = 60") (str "60") rfl (by decide) (Or.inl (by decide))
    (by decide) (by decide) (by simp) (by simp)
